import Mathlib

-- Verification of the Resume Roaster core logic against its specification.
-- Shallow embedding of:
--   UserService.checkRoastLimit        (src/unnamed/part_001, lines 318-360)
--   convertPDFToImages                 (src/src/lib/pdf-to-image.ts, lines 6-71)
--   POST /api/extract-resume-data      (src/src/lib/pdf-to-image.ts, second file)
--   calculateATSScore                  (same route file)
-- together with the GeneratedResume table of the Prisma schema
-- (src/unnamed/part_000, model GeneratedResume, contentHash marked unique).

namespace ResumeRoaster

-- ===================================================================
-- Quota ledger: UserService.checkRoastLimit
-- ===================================================================

/-- Subscription tiers of the User model (Prisma enum SubscriptionTier). -/
inductive SubscriptionTier
  | FREE
  | PLUS
  | PREMIUM
deriving DecidableEq, Repr

/-- Calendar date reduced to the fields checkRoastLimit reads:
now.getFullYear() and now.getMonth(). -/
structure Date where
  year : Int
  month : Int
deriving DecidableEq, Repr

/-- The columns of the User row that checkRoastLimit reads or writes
(Prisma model User: subscription_tier, monthly_roasts, total_roasts,
bonus_credits, last_roast_reset). -/
structure UserRow where
  subscriptionTier : SubscriptionTier
  monthlyRoasts : Nat
  totalRoasts : Nat
  bonusCredits : Nat
  lastRoastReset : Date
deriving DecidableEq, Repr

/-- Whole calendar months between now and lastReset, exactly as computed in
checkRoastLimit: (now.getFullYear() - lastReset.getFullYear()) * 12 +
(now.getMonth() - lastReset.getMonth()). -/
def monthsElapsed (now lastReset : Date) : Int :=
  (now.year - lastReset.year) * 12 + (now.month - lastReset.month)

/-- The MONTHLY_LIMITS constant of checkRoastLimit: FREE 3, PLUS 100,
PREMIUM -1 where -1 is the unlimited sentinel. -/
def MONTHLY_LIMITS : SubscriptionTier → Int
  | .FREE => 3
  | .PLUS => 100
  | .PREMIUM => -1

/-- The object returned by checkRoastLimit. -/
structure RoastLimitResult where
  canRoast : Bool
  remaining : Int
  used : Nat
  limit : Int
  tier : SubscriptionTier
deriving DecidableEq, Repr

/-- UserService.checkRoastLimit (src/unnamed/part_001, lines 318-360):
reset the monthly counter and lastRoastReset when one or more whole calendar
months elapsed, then evaluate the tier limit. The database update is modeled
by returning the updated user row alongside the result. -/
def checkRoastLimit (user : UserRow) (now : Date) : UserRow × RoastLimitResult :=
  let user' :=
    if monthsElapsed now user.lastRoastReset ≥ 1 then
      { user with monthlyRoasts := 0, lastRoastReset := now }
    else user
  let limit := MONTHLY_LIMITS user'.subscriptionTier
  let canRoast : Bool := (limit == -1) || decide ((user'.monthlyRoasts : Int) < limit)
  let remaining : Int := if limit == -1 then -1 else max 0 (limit - (user'.monthlyRoasts : Int))
  (user', { canRoast := canRoast, remaining := remaining, used := user'.monthlyRoasts,
            limit := limit, tier := user'.subscriptionTier })

-- ===================================================================
-- Vision preprocessor: convertPDFToImages (src/src/lib/pdf-to-image.ts)
-- ===================================================================

/-- The JSON body returned by the external conversion service
(POST pdf-to-images): a success flag and an optional images array of base64
strings; images is none when the field is absent (result.images undefined). -/
structure ConversionBody where
  success : Bool
  images : Option (List String)
deriving DecidableEq, Repr

/-- Outcome of the fetch call to the conversion microservice, as observed by
convertPDFToImages: the promise rejected (network error or timeout), the
response had a non-2xx status, or a 2xx response whose body parsed to a
ConversionBody (none when response.json() rejects). -/
inductive FetchOutcome
  | thrown
  | notOk (status : Nat)
  | ok (body : Option ConversionBody)
deriving DecidableEq, Repr

/-- The try block of convertPDFToImages (lines 9-52): every failure path of the
source throws, modeled as Except.error; the success path returns
result.images or the empty list when the field is absent. -/
def convertPDFToImagesTry : FetchOutcome → Except Unit (List String)
  | .thrown => .error ()
  | .notOk _ => .error ()
  | .ok none => .error ()
  | .ok (some body) =>
      if !body.success then .error ()
      else .ok (body.images.getD [])

/-- convertPDFToImages (src/src/lib/pdf-to-image.ts, lines 6-71): the catch
block swallows every thrown error and returns the empty list to fall back to
text-only extraction. The PDF buffer is sent to the service but never inspected
locally; the service behavior is the explicit FetchOutcome argument. -/
def convertPDFToImages (pdfBuffer : List Nat) (outcome : FetchOutcome) : List String :=
  match convertPDFToImagesTry outcome with
  | .ok images => images
  | .error _ => []

/-- True on every outcome the source treats as a failure: rejected fetch,
non-2xx status, unparsable body, or a body with success = false. -/
def isFailureOutcome : FetchOutcome → Bool
  | .thrown => true
  | .notOk _ => true
  | .ok none => true
  | .ok (some body) => !body.success

/-- The images list supplied by the external conversion service on the success
path, per the interface contract of spec section 6: empty unless the response
is 2xx with success = true; absent images field reads as empty. -/
def serviceImages : FetchOutcome → List String
  | .ok (some body) => if body.success then body.images.getD [] else []
  | _ => []

-- ===================================================================
-- Structured resume data and calculateATSScore
-- (POST /api/extract-resume-data helper, src/src/lib/pdf-to-image.ts)
-- ===================================================================

/-- The personalInfo object of the extracted data; each field may be absent
(undefined or null in the source, which accesses them with optional chaining). -/
structure PersonalInfo where
  name : Option String
  email : Option String
  phone : Option String
  location : Option String
deriving DecidableEq, Repr

/-- One experience entry; achievements may be absent. -/
structure ExperienceItem where
  position : String
  company : String
  startDate : String
  endDate : String
  achievements : Option (List String)
deriving DecidableEq, Repr

/-- One education entry. -/
structure EducationItem where
  degree : String
  fieldOfStudy : String
  institution : String
  graduationDate : String
deriving DecidableEq, Repr

/-- The skills object; the technical list may be absent. -/
structure Skills where
  technical : Option (List String)
deriving DecidableEq, Repr

/-- The structured resume payload returned by the provider call and consumed by
calculateATSScore; every top-level field may be absent. -/
structure ExtractedData where
  personalInfo : Option PersonalInfo
  summary : Option String
  experience : Option (List ExperienceItem)
  education : Option (List EducationItem)
  skills : Option Skills
deriving DecidableEq, Repr

/-- JavaScript truthiness of an optional string: absent, null and the empty
string are falsy. -/
def strTruthy : Option String → Bool
  | none => false
  | some s => !s.isEmpty

/-- The regular expression test for a digit applied to an achievement string. -/
def hasDigit (s : String) : Bool := s.any Char.isDigit

/-- calculateATSScore (src/src/lib/pdf-to-image.ts, lines 321-341): sums fixed
bonuses for present fields, adds 15 when some achievement contains a digit, and
clamps the total at 100 with Math.min. The jobDescription argument is accepted
but never read, exactly as in the source. -/
def calculateATSScore (extractedData : ExtractedData) (jobDescription : List Char) : Int :=
  let score : Int := 0
  let score := if strTruthy (extractedData.personalInfo.bind fun p => p.name) then score + 10 else score
  let score := if strTruthy (extractedData.personalInfo.bind fun p => p.email) then score + 10 else score
  let score := if strTruthy (extractedData.personalInfo.bind fun p => p.phone) then score + 5 else score
  let score := if strTruthy extractedData.summary then score + 15 else score
  let score := if (extractedData.experience.getD []).length > 0 then score + 20 else score
  let score := if (extractedData.education.getD []).length > 0 then score + 10 else score
  let score := if ((extractedData.skills.bind fun s => s.technical).getD []).length > 0 then score + 15 else score
  let hasQuantifiedAchievements :=
    (extractedData.experience.getD []).any fun exp =>
      (exp.achievements.getD []).any fun achievement => hasDigit achievement
  let score := if hasQuantifiedAchievements then score + 15 else score
  min score 100

-- ===================================================================
-- POST /api/extract-resume-data (second file inside src/src/lib/pdf-to-image.ts)
-- Texts are modeled as lists of characters; the JavaScript operations
-- length and substring(0, n) become List.length and List.take n.
-- ===================================================================

/-- The maxResumeLength constant of the route. -/
def maxResumeLength : Nat := 8000

/-- The fixed marker appended after truncation. -/
def truncationMarker : List Char := "\n\n[Resume truncated for processing...]".toList

/-- The truncation step of the route: texts longer than maxResumeLength are cut
to their first maxResumeLength characters and the fixed marker is appended;
shorter texts pass through unchanged. -/
def truncateResumeText (resumeText : List Char) : List Char :=
  if resumeText.length > maxResumeLength then
    resumeText.take maxResumeLength ++ truncationMarker
  else resumeText

/-- The default template id of the route. -/
def templateId : List Char := "modern-professional".toList

/-- Model of the SHA-256 hex digest: an ideal collision-free fingerprint,
represented by its pre-image. Identical pre-images give identical digests and,
in this idealization, distinct pre-images give distinct digests; only those two
properties of the digest are used by any theorem below. -/
def sha256Hex (preimage : List Char) : List Char := preimage

/-- The dedup content hash of the route: digest over the truncated resume text,
the job description (empty when absent), the template id and the analysis id
(empty when absent), concatenated in that order. -/
def contentHash (resumeText : List Char) (jobDescription analysisId : Option (List Char)) :
    List Char :=
  sha256Hex (truncateResumeText resumeText ++ jobDescription.getD [] ++ templateId ++
    analysisId.getD [])

/-- One row of the generated_resumes table (Prisma model GeneratedResume) with
the columns the route reads or writes. Row ids (cuids) are modeled as naturals
handed out by the table allocator; the content column (an HTML rendering of the
data written once and never read by any claimed property) and the
keywords_matched column (likewise write-only here) are omitted. -/
structure GeneratedResumeRow where
  id : Nat
  userId : Nat
  templateId : List Char
  contentHash : List Char
  data : ExtractedData
  atsScore : Int
deriving DecidableEq, Repr

/-- The generated_resumes table: rows listed newest first (so that the find
of the route, which orders by createdAt descending, is the first match) and the
id allocator. -/
structure GeneratedResumeTable where
  rows : List GeneratedResumeRow
  nextId : Nat
deriving DecidableEq, Repr

/-- db.generatedResume with a where clause on userId and contentHash and
descending createdAt order: the first matching row, newest first. -/
def findFirstByUserAndHash (t : GeneratedResumeTable) (uid : Nat) (h : List Char) :
    Option GeneratedResumeRow :=
  t.rows.find? fun r => r.userId == uid && r.contentHash == h

/-- db.generatedResume.create: the schema marks content_hash unique, so the
insert fails (none, the uniqueness conflict) when any row already carries the
hash; otherwise the new row is prepended and its fresh id returned. -/
def createGeneratedResume (t : GeneratedResumeTable) (uid : Nat) (tpl h : List Char)
    (d : ExtractedData) (ats : Int) : Option (GeneratedResumeTable × Nat) :=
  if t.rows.any (fun r => r.contentHash == h) then none
  else some
    ({ rows := { id := t.nextId, userId := uid, templateId := tpl, contentHash := h,
                 data := d, atsScore := ats } :: t.rows,
       nextId := t.nextId + 1 }, t.nextId)

/-- The request body of the route; absent jobDescription and analysisId read as
empty strings in the hash, and bypassCache defaults to false at the call site. -/
structure ExtractRequest where
  resumeText : List Char
  jobDescription : Option (List Char)
  analysisId : Option (List Char)
  bypassCache : Bool
deriving DecidableEq, Repr

/-- The outcomes of the external effects of one request: the provider call
(none when callAnthropicResumeOptimization rejects, which the outer catch turns
into a 500) and whether the database writes of the try block other than the
uniqueness check succeed (the LlmCall and LlmMessage bookkeeping writes are
abstracted into this flag; any of their failures lands in the same catch). -/
structure Oracle where
  llm : Option ExtractedData
  dbWriteOk : Bool
deriving DecidableEq, Repr

/-- The response of the route: an error status (400 missing text, 404 unknown
user and 401 missing session are collapsed into their status codes, 500 for
provider failure) or the success envelope with the returned data, the cached
flag and the resumeId (null when the store step failed and was swallowed). -/
inductive RouteResponse
  | error (status : Nat)
  | success (data : ExtractedData) (cached : Bool) (resumeId : Option Nat)
deriving DecidableEq, Repr

/-- The POST handler of /api/extract-resume-data, for an authenticated user
already resolved to uid: reject empty resume text with 400; unless bypassCache,
probe the table by (userId, contentHash) and on a hit return the stored row
with cached = true; otherwise invoke the provider, compute the ATS score, and
inside a try block persist the new row, swallowing any database failure
(including the unique-hash conflict) and returning resumeId = none in that
case, with cached = false either way. -/
def extractResumeDataPOST (t : GeneratedResumeTable) (uid : Nat)
    (req : ExtractRequest) (o : Oracle) : GeneratedResumeTable × RouteResponse :=
  if req.resumeText.isEmpty then
    (t, RouteResponse.error 400)
  else
    match (if req.bypassCache then none
           else findFirstByUserAndHash t uid
             (contentHash req.resumeText req.jobDescription req.analysisId)) with
    | some existingResume =>
        (t, RouteResponse.success existingResume.data true (some existingResume.id))
    | none =>
        match o.llm with
        | none => (t, RouteResponse.error 500)
        | some extractedData =>
            if o.dbWriteOk then
              match createGeneratedResume t uid templateId
                  (contentHash req.resumeText req.jobDescription req.analysisId)
                  extractedData
                  (calculateATSScore extractedData (req.jobDescription.getD [])) with
              | some (t2, rid) => (t2, RouteResponse.success extractedData false (some rid))
              | none => (t, RouteResponse.success extractedData false none)
            else (t, RouteResponse.success extractedData false none)

-- ===================================================================
-- Theorems for C1, C6, C7
-- ===================================================================

/-- C1, counterexample: the claim says an account whose monthly quota is
exhausted but whose bonusCredits are positive is still allowed. In the code,
canRoast never consults bonusCredits: a FREE user with monthlyRoasts = 3 and
bonusCredits = 5 in the current month is denied. -/
theorem c1_counterexample :
    (checkRoastLimit
      { subscriptionTier := SubscriptionTier.FREE, monthlyRoasts := 3, totalRoasts := 3,
        bonusCredits := 5, lastRoastReset := { year := 2025, month := 4 } }
      { year := 2025, month := 4 }).2.canRoast = false ∧
    0 < ({ subscriptionTier := SubscriptionTier.FREE, monthlyRoasts := 3, totalRoasts := 3,
           bonusCredits := 5, lastRoastReset := { year := 2025, month := 4 } } : UserRow).bonusCredits := by
  decide

/-- C1, amended: checkRoastLimit returns canRoast = true exactly when the tier
limit is the unlimited sentinel (-1) or the monthly usage counter (after the
rollover step) is strictly below the tier limit; the bonus credit balance is
not consulted. -/
theorem c1_canRoast_iff (user : UserRow) (now : Date) :
    (checkRoastLimit user now).2.canRoast = true ↔
      ((checkRoastLimit user now).2.limit = -1 ∨
       ((checkRoastLimit user now).2.used : Int) < (checkRoastLimit user now).2.limit) := by
  unfold checkRoastLimit
  dsimp only
  simp [Bool.or_eq_true, beq_iff_eq, decide_eq_true_iff]

/-- C6: if at least one whole calendar month elapsed since lastRoastReset, the
monthly counter is reset to 0 and lastRoastReset is set to now before the quota
is evaluated (so the result reports used = 0); if zero months elapsed the user
row is unchanged; and the counter is never changed to anything other than its
old value or zero. -/
theorem c6_rollover (user : UserRow) (now : Date) :
    (1 ≤ monthsElapsed now user.lastRoastReset →
      (checkRoastLimit user now).1.monthlyRoasts = 0 ∧
      (checkRoastLimit user now).1.lastRoastReset = now ∧
      (checkRoastLimit user now).2.used = 0) ∧
    (monthsElapsed now user.lastRoastReset = 0 → (checkRoastLimit user now).1 = user) ∧
    ((checkRoastLimit user now).1.monthlyRoasts = user.monthlyRoasts ∨
     (checkRoastLimit user now).1.monthlyRoasts = 0) := by
  unfold checkRoastLimit
  dsimp only
  by_cases h : monthsElapsed now user.lastRoastReset ≥ 1
  · simp [h]
    intro h0
    exact absurd h0 (by omega)
  · simp [h]

/-- C6, witness: the rollover conjunct evaluated at a user one month stale, and
the unchanged conjunct evaluated at a user reset this month. -/
theorem c6_rollover_witness :
    ((checkRoastLimit
        { subscriptionTier := SubscriptionTier.FREE, monthlyRoasts := 2, totalRoasts := 2,
          bonusCredits := 0, lastRoastReset := { year := 2025, month := 3 } }
        { year := 2025, month := 4 }).1.monthlyRoasts = 0 ∧
     (checkRoastLimit
        { subscriptionTier := SubscriptionTier.FREE, monthlyRoasts := 2, totalRoasts := 2,
          bonusCredits := 0, lastRoastReset := { year := 2025, month := 3 } }
        { year := 2025, month := 4 }).1.lastRoastReset = { year := 2025, month := 4 } ∧
     (checkRoastLimit
        { subscriptionTier := SubscriptionTier.FREE, monthlyRoasts := 2, totalRoasts := 2,
          bonusCredits := 0, lastRoastReset := { year := 2025, month := 3 } }
        { year := 2025, month := 4 }).2.used = 0) ∧
    (checkRoastLimit
        { subscriptionTier := SubscriptionTier.FREE, monthlyRoasts := 2, totalRoasts := 2,
          bonusCredits := 0, lastRoastReset := { year := 2025, month := 4 } }
        { year := 2025, month := 4 }).1 =
      { subscriptionTier := SubscriptionTier.FREE, monthlyRoasts := 2, totalRoasts := 2,
        bonusCredits := 0, lastRoastReset := { year := 2025, month := 4 } } := by
  refine ⟨(c6_rollover _ _).1 (by decide), (c6_rollover _ _).2.1 (by decide)⟩

/-- C7: the monthly limits are FREE 3, PLUS 100, PREMIUM -1 (unlimited); a FREE
account with monthlyRoasts = 3 and no bonus credits gets canRoast = false and
remaining = 0; after the monthly boundary passes, a subsequent call resets
monthlyRoasts to 0 and canRoast becomes true. -/
theorem c7_tier_limits_and_exhaustion :
    MONTHLY_LIMITS SubscriptionTier.FREE = 3 ∧
    MONTHLY_LIMITS SubscriptionTier.PLUS = 100 ∧
    MONTHLY_LIMITS SubscriptionTier.PREMIUM = -1 ∧
    (checkRoastLimit
      { subscriptionTier := SubscriptionTier.FREE, monthlyRoasts := 3, totalRoasts := 3,
        bonusCredits := 0, lastRoastReset := { year := 2025, month := 4 } }
      { year := 2025, month := 4 }).2.canRoast = false ∧
    (checkRoastLimit
      { subscriptionTier := SubscriptionTier.FREE, monthlyRoasts := 3, totalRoasts := 3,
        bonusCredits := 0, lastRoastReset := { year := 2025, month := 4 } }
      { year := 2025, month := 4 }).2.remaining = 0 ∧
    (checkRoastLimit
      { subscriptionTier := SubscriptionTier.FREE, monthlyRoasts := 3, totalRoasts := 3,
        bonusCredits := 0, lastRoastReset := { year := 2025, month := 4 } }
      { year := 2025, month := 5 }).1.monthlyRoasts = 0 ∧
    (checkRoastLimit
      { subscriptionTier := SubscriptionTier.FREE, monthlyRoasts := 3, totalRoasts := 3,
        bonusCredits := 0, lastRoastReset := { year := 2025, month := 4 } }
      { year := 2025, month := 5 }).2.canRoast = true := by
  decide

-- ===================================================================
-- Theorems for C2, C3
-- ===================================================================

/-- C2, counterexample: the claim bounds the result length by 3 for every
input, but convertPDFToImages imposes no page cap: when the service responds
with four images, all four are returned. -/
theorem c2_counterexample :
    (convertPDFToImages []
      (FetchOutcome.ok (some { success := true, images := some ["1", "2", "3", "4"] }))).length = 4 := by
  decide

/-- C2, amended: convertPDFToImages returns exactly the images list supplied by
the conversion service (empty on any failure), so its length is finite and is
at most 3 whenever the external service supplies at most 3 images; no local
page cap is enforced. -/
theorem c2_images_passthrough (pdfBuffer : List Nat) (outcome : FetchOutcome) :
    convertPDFToImages pdfBuffer outcome = serviceImages outcome ∧
    ((serviceImages outcome).length ≤ 3 → (convertPDFToImages pdfBuffer outcome).length ≤ 3) := by
  constructor
  · cases outcome with
    | thrown => rfl
    | notOk status => rfl
    | ok body =>
      cases body with
      | none => rfl
      | some b =>
        by_cases hs : b.success <;>
          simp [convertPDFToImages, convertPDFToImagesTry, serviceImages, hs]
  · intro h
    cases outcome with
    | thrown => simpa [convertPDFToImages, convertPDFToImagesTry] using h
    | notOk status => simpa [convertPDFToImages, convertPDFToImagesTry] using h
    | ok body =>
      cases body with
      | none => simpa [convertPDFToImages, convertPDFToImagesTry] using h
      | some b =>
        by_cases hs : b.success <;>
          simpa [convertPDFToImages, convertPDFToImagesTry, serviceImages, hs] using h

/-- C2, witness for the amended theorem: a three-image service response passes
through unchanged and satisfies the bound. -/
theorem c2_images_passthrough_witness :
    convertPDFToImages []
        (FetchOutcome.ok (some { success := true, images := some ["1", "2", "3"] })) =
      serviceImages (FetchOutcome.ok (some { success := true, images := some ["1", "2", "3"] })) ∧
    (convertPDFToImages []
        (FetchOutcome.ok (some { success := true, images := some ["1", "2", "3"] }))).length ≤ 3 := by
  have h := c2_images_passthrough []
    (FetchOutcome.ok (some { success := true, images := some ["1", "2", "3"] }))
  exact ⟨h.1, h.2 (by decide)⟩

/-- C3: whenever the external conversion call fails in any way (rejected fetch
for network error or timeout, non-2xx status, unparsable body, or a body with
success = false), convertPDFToImages returns the empty list; by construction it
returns a plain list and never propagates an error to its caller, since the
catch block maps every Except.error of the try block to the empty list. -/
theorem c3_failure_returns_empty (pdfBuffer : List Nat) (outcome : FetchOutcome)
    (h : isFailureOutcome outcome = true) :
    convertPDFToImages pdfBuffer outcome = [] := by
  cases outcome with
  | thrown => rfl
  | notOk status => rfl
  | ok body =>
    cases body with
    | none => rfl
    | some b =>
      simp [isFailureOutcome] at h
      simp [convertPDFToImages, convertPDFToImagesTry, h]

/-- C3, witness: a non-2xx response yields the empty list. -/
theorem c3_failure_returns_empty_witness :
    convertPDFToImages [] (FetchOutcome.notOk 500) = [] :=
  c3_failure_returns_empty [] (FetchOutcome.notOk 500) (by decide)

-- ===================================================================
-- Theorem for C10
-- ===================================================================

/-- A conditional increment by a nonnegative amount preserves a nonnegative
lower bound. -/
theorem condAdd_nonneg (p : Prop) [Decidable p] (s k : Int) (hs : 0 ≤ s) (hk : 0 ≤ k) :
    0 ≤ if p then s + k else s := by
  split <;> omega

/-- C10: for every extracted-data payload and every job description,
calculateATSScore returns an integer between 0 and 100. -/
theorem c10_ats_score_bounds (extractedData : ExtractedData) (jobDescription : List Char) :
    0 ≤ calculateATSScore extractedData jobDescription ∧
    calculateATSScore extractedData jobDescription ≤ 100 := by
  unfold calculateATSScore
  refine ⟨le_min ?_ (by omega), min_le_right _ _⟩
  exact condAdd_nonneg _ _ _
    (condAdd_nonneg _ _ _
      (condAdd_nonneg _ _ _
        (condAdd_nonneg _ _ _
          (condAdd_nonneg _ _ _
            (condAdd_nonneg _ _ _
              (condAdd_nonneg _ _ _
                (condAdd_nonneg _ _ _ le_rfl (by omega))
                (by omega))
              (by omega))
            (by omega))
          (by omega))
        (by omega))
      (by omega))
    (by omega)

-- ===================================================================
-- Theorems for C4, C5, C8, C9
-- ===================================================================

/-- C4: if a first request with bypassCache unset fully succeeded (it returned
the success envelope with cached = false and a stored row id, the PERSISTED
terminal state), then a second request with the same user and the same
normalized inputs returns cached = true, the same data and the same resumeId. -/
theorem c4_second_request_cached (t : GeneratedResumeTable) (uid : Nat)
    (req : ExtractRequest) (o1 o2 : Oracle) (d : ExtractedData) (rid : Nat)
    (hby : req.bypassCache = false)
    (h1 : (extractResumeDataPOST t uid req o1).2 = RouteResponse.success d false (some rid)) :
    (extractResumeDataPOST (extractResumeDataPOST t uid req o1).1 uid req o2).2 =
      RouteResponse.success d true (some rid) := by
  by_cases he : req.resumeText.isEmpty
  · simp [extractResumeDataPOST, he] at h1
  · rcases hf : findFirstByUserAndHash t uid
        (contentHash req.resumeText req.jobDescription req.analysisId) with _ | row
    · rcases hl : o1.llm with _ | ed
      · simp [extractResumeDataPOST, he, hby, hf, hl] at h1
      · by_cases hw : o1.dbWriteOk
        · by_cases hex : t.rows.any
              (fun r => r.contentHash == contentHash req.resumeText req.jobDescription req.analysisId)
          · simp [extractResumeDataPOST, he, hby, hf, hl, hw, hex, createGeneratedResume] at h1
          · simp [extractResumeDataPOST, he, hby, hf, hl, hw, hex, createGeneratedResume] at h1
            obtain ⟨hd, hr⟩ := h1
            have ht : (extractResumeDataPOST t uid req o1).1 =
                { rows := { id := t.nextId, userId := uid, templateId := templateId,
                            contentHash := contentHash req.resumeText req.jobDescription
                              req.analysisId,
                            data := ed,
                            atsScore := calculateATSScore ed (req.jobDescription.getD []) } ::
                    t.rows,
                  nextId := t.nextId + 1 } := by
              simp [extractResumeDataPOST, he, hby, hf, hl, hw, hex, createGeneratedResume]
            rw [ht]
            simp [extractResumeDataPOST, he, hby, findFirstByUserAndHash, List.find?_cons,
              hd, hr]
        · simp [extractResumeDataPOST, he, hby, hf, hl, hw] at h1
    · simp [extractResumeDataPOST, he, hby, hf] at h1

/-- C4, witness: on the empty table, a first request stores row 0 and a second
identical request returns cached = true with the same id. -/
theorem c4_second_request_cached_witness :
    (extractResumeDataPOST
      (extractResumeDataPOST { rows := [], nextId := 0 } 0
        { resumeText := "r".toList, jobDescription := none, analysisId := none,
          bypassCache := false }
        { llm := some { personalInfo := none, summary := none, experience := none,
                        education := none, skills := none }, dbWriteOk := true }).1 0
      { resumeText := "r".toList, jobDescription := none, analysisId := none,
        bypassCache := false }
      { llm := some { personalInfo := none, summary := none, experience := none,
                      education := none, skills := none }, dbWriteOk := true }).2 =
    RouteResponse.success
      { personalInfo := none, summary := none, experience := none,
        education := none, skills := none } true (some 0) := by
  exact c4_second_request_cached _ _ _ _ _ _ _ (by decide) (by decide)

/-- Characterization of a successful insert: it prepends exactly one new row
carrying the fresh id and leaves the old rows untouched. -/
theorem createGeneratedResume_eq_some (t : GeneratedResumeTable) (uid : Nat)
    (tpl h : List Char) (d : ExtractedData) (ats : Int) (t2 : GeneratedResumeTable) (rid : Nat)
    (hcr : createGeneratedResume t uid tpl h d ats = some (t2, rid)) :
    t2.rows = { id := t.nextId, userId := uid, templateId := tpl, contentHash := h,
                data := d, atsScore := ats } :: t.rows ∧ rid = t.nextId := by
  unfold createGeneratedResume at hcr
  split at hcr
  · exact absurd hcr (by simp)
  · injection hcr with hpair
    injection hpair with h2 hrid
    subst h2
    exact ⟨rfl, hrid.symm⟩

/-- C5, amended: no operation mutates or removes a GeneratedResume row after
its creation (the route only ever prepends a row), and a request with
bypassCache = true whose contentHash already has a stored row does not
overwrite it, but it also does not create a new row: its insert fails on the
unique content_hash column, the failure is swallowed, and the table is left
exactly as it was. -/
theorem c5_rows_immutable (t : GeneratedResumeTable) (uid : Nat) (req : ExtractRequest)
    (o : Oracle) :
    (∀ r ∈ t.rows, r ∈ (extractResumeDataPOST t uid req o).1.rows) ∧
    (req.bypassCache = true →
      (∃ r ∈ t.rows,
        r.contentHash = contentHash req.resumeText req.jobDescription req.analysisId) →
      (extractResumeDataPOST t uid req o).1 = t) := by
  constructor
  · intro r hr
    unfold extractResumeDataPOST
    split
    · exact hr
    · split
      · exact hr
      · split
        · exact hr
        · split
          · split
            · rename_i t2 rid hcr
              rw [(createGeneratedResume_eq_some _ _ _ _ _ _ _ _ hcr).1]
              exact List.mem_cons_of_mem _ hr
            · exact hr
          · exact hr
  · intro hbp hex
    obtain ⟨r0, hr0, hh0⟩ := hex
    have hany : (t.rows.any fun r =>
        r.contentHash == contentHash req.resumeText req.jobDescription req.analysisId) = true :=
      List.any_eq_true.mpr ⟨r0, hr0, by simp [hh0]⟩
    unfold extractResumeDataPOST
    by_cases he : req.resumeText.isEmpty
    · simp [he]
    · rcases hl : o.llm with _ | ed
      · simp [he, hbp, hl]
      · by_cases hw : o.dbWriteOk
        · simp [he, hbp, hl, hw, createGeneratedResume, hany]
        · simp [he, hbp, hl, hw]

/-- C5, witness: the membership part at a one-row table whose row survives a
fresh-hash request, and the bypass part at the same table with a matching-hash
bypass request, which leaves the table exactly as it was. -/
theorem c5_rows_immutable_witness :
    { id := 7, userId := 0, templateId := templateId,
      contentHash := contentHash ("r".toList) none none,
      data := { personalInfo := none, summary := none, experience := none,
                education := none, skills := none }, atsScore := 0 } ∈
      (extractResumeDataPOST
        { rows := [{ id := 7, userId := 0, templateId := templateId,
                     contentHash := contentHash ("r".toList) none none,
                     data := { personalInfo := none, summary := none, experience := none,
                               education := none, skills := none }, atsScore := 0 }],
          nextId := 8 } 0
        { resumeText := "s".toList, jobDescription := none, analysisId := none,
          bypassCache := false }
        { llm := some { personalInfo := none, summary := none, experience := none,
                        education := none, skills := none }, dbWriteOk := true }).1.rows ∧
    (extractResumeDataPOST
        { rows := [{ id := 7, userId := 0, templateId := templateId,
                     contentHash := contentHash ("r".toList) none none,
                     data := { personalInfo := none, summary := none, experience := none,
                               education := none, skills := none }, atsScore := 0 }],
          nextId := 8 } 0
        { resumeText := "r".toList, jobDescription := none, analysisId := none,
          bypassCache := true }
        { llm := some { personalInfo := none, summary := none, experience := none,
                        education := none, skills := none }, dbWriteOk := true }).1 =
      { rows := [{ id := 7, userId := 0, templateId := templateId,
                   contentHash := contentHash ("r".toList) none none,
                   data := { personalInfo := none, summary := none, experience := none,
                             education := none, skills := none }, atsScore := 0 }],
        nextId := 8 } := by
  constructor
  · exact (c5_rows_immutable _ _ _ _).1 _ (by simp)
  · exact (c5_rows_immutable _ _ _ _).2 rfl ⟨_, List.mem_cons_self _ _, rfl⟩

/-- C5, counterexample: the claim says a bypassCache = true request for inputs
whose contentHash already has a stored row creates a new row. At a table
holding one row with that hash, the bypass request leaves the table unchanged
(the insert fails on the unique hash and is swallowed) and returns a null
resumeId: no new row is created. -/
theorem c5_counterexample :
    (extractResumeDataPOST
        { rows := [{ id := 7, userId := 0, templateId := templateId,
                     contentHash := contentHash ("q".toList) none none,
                     data := { personalInfo := none, summary := none, experience := none,
                               education := none, skills := none }, atsScore := 0 }],
          nextId := 8 } 0
        { resumeText := "q".toList, jobDescription := none, analysisId := none,
          bypassCache := true }
        { llm := some { personalInfo := none, summary := none, experience := none,
                        education := none, skills := none }, dbWriteOk := true }) =
      ({ rows := [{ id := 7, userId := 0, templateId := templateId,
                    contentHash := contentHash ("q".toList) none none,
                    data := { personalInfo := none, summary := none, experience := none,
                              education := none, skills := none }, atsScore := 0 }],
          nextId := 8 },
        RouteResponse.success
          { personalInfo := none, summary := none, experience := none,
            education := none, skills := none } false none) := by
  decide

/-- C8, counterexample: the claim says that on a uniqueness conflict the
winning row is re-read and returned. At a table already holding row 7 with the
request hash (stored by another user, so the cache probe of user 0 misses),
user 0 regenerates, the insert conflicts on the unique hash, and the response
carries the freshly generated data with resumeId = none: row 7 is neither
re-read nor returned. -/
theorem c8_counterexample :
    (extractResumeDataPOST
        { rows := [{ id := 7, userId := 1, templateId := templateId,
                     contentHash := contentHash ("w".toList) none none,
                     data := { personalInfo := none, summary := none, experience := none,
                               education := none, skills := none }, atsScore := 0 }],
          nextId := 8 } 0
        { resumeText := "w".toList, jobDescription := none, analysisId := none,
          bypassCache := false }
        { llm := some { personalInfo := none, summary := some "fresh", experience := none,
                        education := none, skills := none }, dbWriteOk := true }).2 =
      RouteResponse.success
        { personalInfo := none, summary := some "fresh", experience := none,
          education := none, skills := none } false none := by
  decide

/-- C8, amended: when the insert of the route hits the unique-hash conflict
(a row with the same contentHash is already stored while the cache step did not
return, because it was bypassed or the stored row belongs to another user), the
conflict is caught and swallowed: the request still succeeds, returning the
freshly generated data with cached = false and resumeId = none, and the stored
winning row is left intact but is not re-read. -/
theorem c8_conflict_swallowed (t : GeneratedResumeTable) (uid : Nat) (req : ExtractRequest)
    (o : Oracle) (d : ExtractedData)
    (he : req.resumeText.isEmpty = false)
    (hmiss : (if req.bypassCache then none
              else findFirstByUserAndHash t uid
                (contentHash req.resumeText req.jobDescription req.analysisId)) = none)
    (hl : o.llm = some d)
    (hex : ∃ r ∈ t.rows,
      r.contentHash = contentHash req.resumeText req.jobDescription req.analysisId) :
    extractResumeDataPOST t uid req o = (t, RouteResponse.success d false none) := by
  obtain ⟨r0, hr0, hh0⟩ := hex
  have hany : (t.rows.any fun r =>
      r.contentHash == contentHash req.resumeText req.jobDescription req.analysisId) = true :=
    List.any_eq_true.mpr ⟨r0, hr0, by simp [hh0]⟩
  unfold extractResumeDataPOST
  by_cases hw : o.dbWriteOk
  · simp [he, hmiss, hl, hw, createGeneratedResume, hany]
  · simp [he, hmiss, hl, hw]

/-- C8, witness: the amended behavior at a concrete cross-user conflict. -/
theorem c8_conflict_swallowed_witness :
    extractResumeDataPOST
        { rows := [{ id := 7, userId := 1, templateId := templateId,
                     contentHash := contentHash ("v".toList) none none,
                     data := { personalInfo := none, summary := none, experience := none,
                               education := none, skills := none }, atsScore := 0 }],
          nextId := 8 } 0
        { resumeText := "v".toList, jobDescription := none, analysisId := none,
          bypassCache := false }
        { llm := some { personalInfo := none, summary := none, experience := none,
                        education := none, skills := none }, dbWriteOk := true } =
      ({ rows := [{ id := 7, userId := 1, templateId := templateId,
                    contentHash := contentHash ("v".toList) none none,
                    data := { personalInfo := none, summary := none, experience := none,
                              education := none, skills := none }, atsScore := 0 }],
          nextId := 8 },
        RouteResponse.success
          { personalInfo := none, summary := none, experience := none,
            education := none, skills := none } false none) := by
  exact c8_conflict_swallowed _ _ _ _ _ (by decide) (by decide) (by decide)
    ⟨_, List.mem_cons_self _ _, rfl⟩

/-- C9, counterexample: the claim asserts one shared hash for every pair of
resume texts agreeing on their first 8000 characters. Two texts of lengths
8000 and 8001 agree on their first 8000 characters, yet only the longer one
receives the truncation marker, so their content hashes differ. -/
theorem c9_counterexample :
    (List.replicate 8000 'a').take maxResumeLength =
      (List.replicate 8001 'a').take maxResumeLength ∧
    contentHash (List.replicate 8000 'a') none none ≠
      contentHash (List.replicate 8001 'a') none none := by
  constructor
  · unfold maxResumeLength
    rw [List.take_replicate, List.take_replicate]
    norm_num
  · intro hEq
    have hlenEq := congrArg List.length hEq
    have hm : truncationMarker.length = 38 := by decide
    simp only [contentHash, sha256Hex, truncateResumeText, maxResumeLength,
      List.length_replicate, List.length_append, List.length_take, Option.getD_none,
      List.length_nil, hm] at hlenEq
    rw [if_neg (by norm_num), if_pos (by norm_num)] at hlenEq
    simp only [List.length_append, List.length_take, List.length_replicate, hm] at hlenEq
    omega

/-- C9, amended: the route truncates the resume text to its first 8000
characters plus a fixed marker before hashing; two requests with identical job
description, template id and analysis id compute the same contentHash whenever
their resume texts agree on their first 8000 characters and are on the same
side of the 8000-character threshold (both longer, or both at most 8000, in
which case agreeing prefixes force equal texts). A text of exactly 8000
characters and a longer text sharing that prefix hash differently, because only
the longer one receives the truncation marker. -/
theorem c9_hash_truncation (a b : List Char) (jd aid : Option (List Char))
    (h8 : a.take maxResumeLength = b.take maxResumeLength)
    (hside : a.length > maxResumeLength ↔ b.length > maxResumeLength) :
    contentHash a jd aid = contentHash b jd aid := by
  suffices htr : truncateResumeText a = truncateResumeText b by
    unfold contentHash sha256Hex
    rw [htr]
  by_cases hA : a.length > maxResumeLength
  · have hB := hside.mp hA
    unfold truncateResumeText
    rw [if_pos hA, if_pos hB, h8]
  · have hB : ¬b.length > maxResumeLength := fun h => hA (hside.mpr h)
    have hab : a = b := by
      rw [← List.take_of_length_le (le_of_not_lt hA), ← List.take_of_length_le (le_of_not_lt hB),
        h8]
    rw [hab]

/-- C9, witness: two texts of lengths 8001 and 8002 agreeing on their first
8000 characters share one content hash. -/
theorem c9_hash_truncation_witness :
    contentHash (List.replicate 8001 'a') none none =
      contentHash (List.replicate 8002 'a') none none := by
  exact c9_hash_truncation _ _ _ _
    (by unfold maxResumeLength
        rw [List.take_replicate, List.take_replicate]
        norm_num)
    (by unfold maxResumeLength
        rw [List.length_replicate, List.length_replicate]
        omega)

end ResumeRoaster
